import Mathlib

/-!
Shallow embedding of the coordination core of the `newstown` multi-agent
newsroom pipeline, and proofs about it.

Embedded source files:
* `src/db/events.py`    — `EventStore.append`, `EventStore.get_story_events`
* `src/db/tasks.py`     — `TaskQueue.create`, `TaskQueue.complete`, `TaskQueue.fail`
* `src/db/memory.py`    — `MemoryStore.add`, `MemoryStore.find_similar_stories`
* `src/db/human_oversight.py` — `HumanPromptStore.get_pending_prompts`
* `src/chief/orchestrator.py` — `Chief.process_new_detections`,
  `Chief.process_reviews`, `Chief.recover_stalled_tasks`,
  `Chief.process_human_prompts`
* `src/agents/scout.py` — `ScoutAgent.calculate_newsworthiness`, `ScoutAgent.scan_feed`

Modelling conventions:
* The relational backend is a pure record `DBState`; every SQL statement the
  source issues is translated into a pure transformation of that record.
* UUIDs are modelled as `Nat`; fresh ids come from counters in `DBState`.
* Timestamps (`now()`, `created_at`, …) are `Int` seconds; a SQL interval of
  30 minutes is the literal 1800, of 1 hour the literal 3600.
* Python floats are modelled as exact rationals `ℚ`.  Because Mathlib's `ℚ`
  arithmetic is irreducible we use executable wrappers `qadd`/`qsub`/`qmul`
  built on `mkRat`, with bridge lemmas equating them to `+`/`-`/`*`.
* JSON dictionaries (event payloads, task input/output) are modelled by the
  inductive `JVal`; `dict.get(k)` is `jGet`, `dict.get(k, d)` is
  `(jGet v k).getD d`, and Python truthiness of a JSON value is `jTruthy`.
-/

/-- JSON-like values: the payloads stored in event `data` and task
`input`/`output` columns. -/
inductive JVal : Type where
  | null : JVal
  | bool : Bool → JVal
  | num : ℚ → JVal
  | str : String → JVal
  | arr : List JVal → JVal
  | obj : List (String × JVal) → JVal

/-- Python `d.get(key)` on a JSON object: first binding of `key`, if any
(the dictionaries produced by the source have distinct keys). -/
def jGet (v : JVal) (key : String) : Option JVal :=
  match v with
  | .obj kvs => (kvs.find? (fun kv => kv.1 = key)).map (·.2)
  | _ => none

/-- Python truthiness of a JSON value (`if not draft:` in the source):
`None`, `False`, `0`, `""`, `[]` and `{}` are falsy. -/
def jTruthy (v : JVal) : Bool :=
  match v with
  | .null => false
  | .bool b => b
  | .num q => q != 0
  | .str s => s ≠ ""
  | .arr l => ¬ l.isEmpty
  | .obj l => ¬ l.isEmpty

/-- Python `v == s` for a JSON value against a string literal. -/
def JVal.isStr (v : JVal) (s : String) : Bool :=
  match v with
  | .str t => t = s
  | _ => false

/-- Executable rational addition (`mkRat` reduces definitionally, Mathlib's
`Rat.add` does not).  Bridged to `+` by `qadd_eq`. -/
def qadd (a b : ℚ) : ℚ := mkRat (a.num * (b.den : Int) + b.num * (a.den : Int)) (a.den * b.den)

/-- Executable rational subtraction; bridged to `-` by `qsub_eq`. -/
def qsub (a b : ℚ) : ℚ := mkRat (a.num * (b.den : Int) - b.num * (a.den : Int)) (a.den * b.den)

/-- Executable rational multiplication; bridged to `*` by `qmul_eq`. -/
def qmul (a b : ℚ) : ℚ := mkRat (a.num * b.num) (a.den * b.den)

/-- Python `int(q)` on a non-negative-or-negative rational: truncation toward
zero (`int(score * 10)` in `Chief.process_new_detections`). -/
def pyInt (q : ℚ) : Int := q.num.tdiv q.den

inductive TaskStage : Type where
  | detect | research | draft | edit | review | publish
deriving DecidableEq, Repr

inductive TaskStatus : Type where
  | pending | active | completed | failed
deriving DecidableEq, Repr

/-- Row of the `story_tasks` table (`Task` model in `src/db/tasks.py`). -/
structure StoryTask : Type where
  id : Nat
  story_id : Nat
  stage : TaskStage
  status : TaskStatus
  priority : Int
  assigned_agent : Option Nat
  input : JVal
  output : JVal
  created_at : Int
  started_at : Option Int
  completed_at : Option Int

/-- Row of the `story_events` table (`Event` model in `src/db/events.py`). -/
structure Event : Type where
  id : Nat
  story_id : Nat
  agent_id : Option Nat
  event_type : String
  data : JVal
  created_at : Int

/-- Row of the `articles` table (only the columns the orchestrator writes). -/
structure Article : Type where
  id : Nat
  story_id : Nat
  headline : JVal
  body : JVal

/-- Row of the `story_memory` table (`src/db/memory.py`). -/
structure MemoryRow : Type where
  story_id : Nat
  content : String
  embedding : List ℚ
  memory_type : String
  metadata : JVal

/-- Row of the `human_prompts` table (`src/db/human_oversight.py`). -/
structure HumanPrompt : Type where
  id : Nat
  story_id : Nat
  prompt_text : String
  status : String
  created_at : Int

/-- The durable store: every table the embedded code touches, plus id
counters and the clock (`now()`).  Lists are kept in insertion order, which
for rows stamped with `created_at = now()` coincides with ascending
`created_at` order. -/
structure DBState : Type where
  events : List Event
  tasks : List StoryTask
  articles : List Article
  memory : List MemoryRow
  prompts : List HumanPrompt
  nextEventId : Nat
  nextTaskId : Nat
  nextArticleId : Nat
  nextStoryId : Nat
  now : Int

/-- `EventStore.append` (src/db/events.py lines 26-54): one unconditional
`INSERT INTO story_events … RETURNING id`.  The source performs no
validation of `event_type` whatsoever. -/
def EventStore.append (st : DBState) (story_id : Nat) (event_type : String)
    (data : JVal) (agent_id : Option Nat) : DBState × Nat :=
  let e : Event :=
    { id := st.nextEventId
      story_id := story_id
      agent_id := agent_id
      event_type := event_type
      data := data
      created_at := st.now }
  ({ st with events := st.events ++ [e], nextEventId := st.nextEventId + 1 },
   st.nextEventId)

/-- `EventStore.get_story_events`: `SELECT … WHERE story_id = $1 ORDER BY
created_at ASC` (the model's event list is already in that order). -/
def EventStore.get_story_events (st : DBState) (story_id : Nat) : List Event :=
  st.events.filter (fun e => e.story_id = story_id)

/-- `BaseAgent.log_event` (src/agents/base.py lines 76-88): append with the
calling agent's id; the concrete id is irrelevant to every claim, we use 0. -/
def logEvent (st : DBState) (story_id : Nat) (event_type : String) (data : JVal) : DBState :=
  (EventStore.append st story_id event_type data (some 0)).1

/-- `TaskQueue.create` (src/db/tasks.py lines 51-81): `INSERT INTO
story_tasks (story_id, stage, priority, input, deadline)`; the row starts
`pending` with no agent and empty output. -/
def TaskQueue.create (st : DBState) (story_id : Nat) (stage : TaskStage)
    (priority : Int) (input_data : JVal) : DBState × Nat :=
  let t : StoryTask :=
    { id := st.nextTaskId
      story_id := story_id
      stage := stage
      status := .pending
      priority := priority
      assigned_agent := none
      input := input_data
      output := .obj []
      created_at := st.now
      started_at := none
      completed_at := none }
  ({ st with tasks := st.tasks ++ [t], nextTaskId := st.nextTaskId + 1 },
   st.nextTaskId)

/-- `TaskQueue.complete` (src/db/tasks.py lines 112-130): `UPDATE story_tasks
SET status = 'completed', output = $2, completed_at = now() WHERE id = $1`.
Note the `WHERE` clause constrains only the id — there is no status
precondition in the source. -/
def TaskQueue.complete (st : DBState) (task_id : Nat) (output_data : JVal) : DBState :=
  { st with tasks := st.tasks.map (fun t =>
      if t.id = task_id then
        { t with status := .completed, output := output_data, completed_at := some st.now }
      else t) }

/-- `TaskQueue.fail` (src/db/tasks.py lines 132-150): `UPDATE story_tasks SET
status = 'failed', output = jsonb_build_object('error', $2), completed_at =
now() WHERE id = $1`.  Again no status precondition. -/
def TaskQueue.fail (st : DBState) (task_id : Nat) (error : String) : DBState :=
  { st with tasks := st.tasks.map (fun t =>
      if t.id = task_id then
        { t with
          status := .failed
          output := .obj [("error", .str error)]
          completed_at := some st.now }
      else t) }

/-- `MemoryStore.add` (src/db/memory.py lines 14-53): unconditional
`INSERT INTO story_memory`. -/
def MemoryStore.add (st : DBState) (story_id : Nat) (content : String)
    (embedding : List ℚ) (memory_type : String) (metadata : JVal) : DBState :=
  { st with memory := st.memory ++
      [{ story_id := story_id
         content := content
         embedding := embedding
         memory_type := memory_type
         metadata := metadata }] }

/-- Result row of `MemoryStore.find_similar_stories`:
`{ story_id, similarity, content }`. -/
structure SimResult : Type where
  story_id : Nat
  similarity : ℚ
  content : String

/-- `MemoryStore.find_similar_stories` (src/db/memory.py lines 55-99):
`SELECT story_id, content, 1 - (embedding <=> $1) AS similarity FROM
story_memory WHERE (embedding <=> $1) < $2 AND memory_type = 'summary'
ORDER BY embedding <=> $1 ASC LIMIT $3` with `$2 = 1.0 - threshold`.

pgvector's `<=>` (cosine distance) is computed inside the database
extension, outside this repository's code, so the model abstracts it as the
parameter `dist`.  Note the comparison the source issues is the *strict*
`<` on the distance, i.e. similarity strictly greater than `threshold`.
`ORDER BY … ASC` on equal distances is backend-unspecified; the model uses a
stable sort of the stored order. -/
def MemoryStore.find_similar_stories (dist : List ℚ → List ℚ → ℚ) (st : DBState)
    (embedding : List ℚ) (threshold : ℚ) (lim : Nat) : List SimResult :=
  let distance_threshold := qsub 1 threshold
  let rows := st.memory.filter (fun r =>
    decide (dist embedding r.embedding < distance_threshold) && r.memory_type == "summary")
  ((rows.insertionSort
      (fun a b => dist embedding a.embedding ≤ dist embedding b.embedding)).take lim).map
    (fun r =>
      { story_id := r.story_id
        similarity := qsub 1 (dist embedding r.embedding)
        content := r.content })

/-- Default score gate: `settings.min_newsworthiness_score = 0.6`
(src/config/settings.py line 44). -/
def min_newsworthiness_score : ℚ := mkRat 3 5

/-- Python `data.get("score", 0)` followed by a numeric comparison.  The
payloads the system writes always carry a numeric `score`; a payload with a
non-numeric `score` would raise `TypeError` in the source and is outside the
model, which returns the default 0 for it. -/
def pyScore (d : JVal) : ℚ :=
  match jGet d "score" with
  | some (.num q) => q
  | _ => 0

/-- The id-selection query of `Chief.process_new_detections`
(src/chief/orchestrator.py lines 37-53): story ids having a
`story.detected` event and no `story.created` event, `LIMIT 10`.
`SELECT DISTINCT` returns ids in backend-unspecified order; the model
dedups the event order. -/
def Chief.detectedNotCreated (st : DBState) : List Nat :=
  let detected := ((st.events.filter (fun e => e.event_type = "story.detected")).map
    (fun e => e.story_id)).dedup
  let created := (st.events.filter (fun e => e.event_type = "story.created")).map
    (fun e => e.story_id)
  (detected.filter (fun s => ¬ created.contains s)).take 10

/-- Loop body of `Chief.process_new_detections` (src/chief/orchestrator.py
lines 56-104).  Note `detection_event` is obtained by `next(e for e in
events if …)` over the events in chronological order — the *earliest*
`story.detected` event — and the task priority is `int(score * 10)`
(truncation, not rounding). -/
def Chief.processOneDetection (st : DBState) (story_id : Nat) : DBState :=
  let events := EventStore.get_story_events st story_id
  match events.find? (fun e => e.event_type = "story.detected") with
  | none => st
  | some detection_event =>
    let score := pyScore detection_event.data
    if score < min_newsworthiness_score then
      logEvent st story_id "story.rejected"
        (.obj [("reason", .str "low_score"), ("score", .num score)])
    else
      let st1 := logEvent st story_id "story.created"
        (.obj [("score", .num score),
               ("title", (jGet detection_event.data "title").getD .null)])
      (TaskQueue.create st1 story_id .research (pyInt (qmul score 10))
        (.obj [("detection_data", detection_event.data)])).1

/-- `Chief.process_new_detections` (src/chief/orchestrator.py lines 34-106). -/
def Chief.process_new_detections (st : DBState) : DBState :=
  (Chief.detectedNotCreated st).foldl Chief.processOneDetection st

/-- The `completed_at > NOW() - INTERVAL '1 hour'` filter of
`Chief.process_reviews` (src/chief/orchestrator.py line 248). -/
def withinLastHour (now : Int) (t : StoryTask) : Bool :=
  match t.completed_at with
  | some c => decide (now - 3600 < c)
  | none => false

/-- The review rows fetched by `Chief.process_reviews`
(src/chief/orchestrator.py lines 243-252): completed reviews finished
within the last hour, `LIMIT 10`. -/
def Chief.selectedReviews (st : DBState) : List StoryTask :=
  (st.tasks.filter (fun t =>
    t.stage == TaskStage.review && t.status == TaskStatus.completed &&
      withinLastHour st.now t)).take 10

/-- `SELECT COUNT(*) FROM story_tasks WHERE story_id = $1 AND stage = 'edit'`
(src/chief/orchestrator.py lines 305-308). -/
def editCount (tasks : List StoryTask) (story_id : Nat) : Nat :=
  (tasks.filter (fun t =>
    t.story_id == story_id && t.stage == TaskStage.edit)).length

/-- `SELECT * FROM story_tasks WHERE story_id = $1 ORDER BY created_at DESC
LIMIT 1` (src/chief/orchestrator.py lines 325-328).  On ties of
`created_at` the backend's choice is unspecified; the model keeps the
earliest-listed row among the tied maxima. -/
def latestTask (tasks : List StoryTask) (story_id : Nat) : Option StoryTask :=
  (tasks.filter (fun t => t.story_id == story_id)).foldl
    (fun acc t =>
      match acc with
      | none => some t
      | some a => if a.created_at < t.created_at then some t else some a)
    none

/-- `ArticleStore.create_article` (src/db/articles.py lines 99-129), reduced
to the columns the orchestrator's review handler populates. -/
def ArticleStore.create_article (st : DBState) (story_id : Nat)
    (headline body : JVal) : DBState × Nat :=
  ({ st with
     articles := st.articles ++
       [{ id := st.nextArticleId
          story_id := story_id
          headline := headline
          body := body }]
     nextArticleId := st.nextArticleId + 1 },
   st.nextArticleId)

/-- Loop body of `Chief.process_reviews` (src/chief/orchestrator.py lines
255-349): APPROVE creates an article plus a publish task (unless a publish
task exists); REJECT kills the story at ≥ 3 edit tasks, and otherwise
creates an edit task only when this review is the story's most recently
created task. -/
def Chief.reviewStep (st : DBState) (row : StoryTask) : DBState :=
  let decision := (jGet row.output "decision").getD .null
  if decision.isStr "APPROVE" then
    if st.tasks.any (fun t =>
        t.story_id == row.story_id && t.stage == TaskStage.publish) then st
    else
      let draft := (jGet row.input "draft").getD (.obj [])
      if ¬ jTruthy draft then st
      else
        let article_body := (jGet draft "article").getD (.str "")
        let headline := (jGet draft "headline").getD (.str "Untitled")
        let created := ArticleStore.create_article st row.story_id headline article_body
        (TaskQueue.create created.1 row.story_id .publish 8
          (.obj [("article_id", .str (toString created.2)),
                 ("channels", .arr [.str "rss"])])).1
  else if decision.isStr "REJECT" then
    let revision_count := editCount st.tasks row.story_id
    if 3 ≤ revision_count then
      logEvent st row.story_id "story.killed"
        (.obj [("reason", .str "too_many_revisions"),
               ("last_feedback", (jGet row.output "feedback").getD .null)])
    else
      match latestTask st.tasks row.story_id with
      | some lt =>
        if lt.id = row.id then
          let draft_content := (jGet row.input "draft").getD (.obj [])
          (TaskQueue.create st row.story_id .edit 7
            (.obj [("draft", draft_content),
                   ("feedback", (jGet row.output "feedback").getD
                     (.str "No feedback provided.")),
                   ("revision_number", .num ((revision_count : ℚ) + 1))])).1
        else st
      | none => st
  else st

/-- `Chief.process_reviews` (src/chief/orchestrator.py lines 240-350). -/
def Chief.process_reviews (st : DBState) : DBState :=
  (Chief.selectedReviews st).foldl Chief.reviewStep st

/-- The stalled-task predicate of `Chief.recover_stalled_tasks`
(src/chief/orchestrator.py lines 355-360): `status = 'active' AND
started_at < now() - INTERVAL '30 minutes'` (a NULL `started_at` never
compares true). -/
def stalled (now : Int) (t : StoryTask) : Bool :=
  t.status == TaskStatus.active &&
    (match t.started_at with
     | some s => decide (s < now - 1800)
     | none => false)

/-- `Chief.recover_stalled_tasks` (src/chief/orchestrator.py lines 352-383):
each stalled task is reset to `pending` with `assigned_agent = NULL` and
`started_at = NULL`; every other row is untouched. -/
def Chief.recover_stalled_tasks (st : DBState) : DBState :=
  { st with tasks := st.tasks.map (fun t =>
      if stalled st.now t then
        { t with status := .pending, assigned_agent := none, started_at := none }
      else t) }

/-- `HumanPromptStore.get_pending_prompts` (src/db/human_oversight.py lines
70-99): all prompts with `status = 'pending'`, ordered by `created_at`
(the model's prompt list is kept in that order). -/
def HumanPromptStore.get_pending_prompts (st : DBState) : List HumanPrompt :=
  st.prompts.filter (fun p => p.status == "pending")

/-- `HumanPromptStore.mark_processing` (src/db/human_oversight.py lines
120-125).  Defined because the spec's orchestrator is said to call it;
`Chief.process_human_prompts` in the source never does. -/
def HumanPromptStore.mark_processing (st : DBState) (prompt_id : Nat) : DBState :=
  { st with prompts := st.prompts.map (fun p =>
      if p.id = prompt_id then { p with status := "processing" } else p) }

/-- Loop body of `Chief.process_human_prompts` (src/chief/orchestrator.py
lines 392-427): find the story's first `story.detected` event, create a
priority-10 research task carrying the prompt.  The prompt row itself is
never updated by this function. -/
def Chief.promptStep (st : DBState) (p : HumanPrompt) : DBState :=
  let events := EventStore.get_story_events st p.story_id
  match events.find? (fun e => e.event_type = "story.detected") with
  | none => st
  | some detection_event =>
    (TaskQueue.create st p.story_id .research 10
      (.obj [("detection_data", detection_event.data),
             ("human_prompt_id", .num (p.id : ℚ)),
             ("human_prompt_text", .str p.prompt_text)])).1

/-- `Chief.process_human_prompts` (src/chief/orchestrator.py lines 385-429). -/
def Chief.process_human_prompts (st : DBState) : DBState :=
  (HumanPromptStore.get_pending_prompts st).foldl Chief.promptStep st

/-- One entry of a parsed RSS feed, with the fields
`ScoutAgent.calculate_newsworthiness` and `ScoutAgent.scan_feed` read.
`entry.get("title", "")`/`entry.get("summary", "")` are the `String`
fields (a missing key is the empty string, which is equally falsy);
`entry.get("link")`/`entry.get("published")` are the `Option` fields. -/
structure FeedEntry : Type where
  title : String
  summary : String
  link : Option String
  published : Option String

/-- Python `entry.get(k)` rendered into a JSON payload field
(`None` becomes JSON `null`). -/
def optStrJ : Option String → JVal
  | some s => .str s
  | none => .null

/-- `ScoutAgent.calculate_newsworthiness` (src/agents/scout.py lines 26-51):
0.3 for title+summary, an unconditional 0.2 recency placeholder, 0.2 for a
link, 0.2 for a summary longer than 200 characters, capped at 1.0. -/
def ScoutAgent.calculate_newsworthiness (entry : FeedEntry) : ℚ :=
  let s1 : ℚ := if entry.title ≠ "" ∧ entry.summary ≠ "" then qadd 0 (mkRat 3 10) else 0
  let s2 := qadd s1 (mkRat 1 5)
  let s3 := if entry.link.getD "" ≠ "" then qadd s2 (mkRat 1 5) else s2
  let s4 := if 200 < entry.summary.length then qadd s3 (mkRat 1 5) else s3
  min s4 1

/-- Loop body of `ScoutAgent.scan_feed` (src/agents/scout.py lines 65-150)
for one feed entry.  `embedf` models `embedding_service.embed` together
with the `memory_store.find_similar_stories` call inside the same `try`:
an exception from either (`Except.error`) is caught and leaves
`embedding = []`, `similar_stories = []`.  `entity_extractor` is modelled
as unavailable (`None` in the source), so `entities_meta = {}`. -/
def ScoutAgent.scanEntry (embedf : String → Except String (List ℚ))
    (dist : List ℚ → List ℚ → ℚ) (feed_url : String)
    (st : DBState) (entry : FeedEntry) : DBState :=
  let score := ScoutAgent.calculate_newsworthiness entry
  if score < mkRat 3 5 then st
  else
    let title := entry.title
    let summary := entry.summary.take 500
    let content_for_embedding := title ++ ". " ++ summary
    let found :=
      match embedf content_for_embedding with
      | .error _ => ([], [])
      | .ok emb => (emb, MemoryStore.find_similar_stories dist st emb (mkRat 17 20) 1)
    let embedding := found.1
    let similar_stories := found.2
    let idDup :=
      match similar_stories with
      | existing_story :: _ => (existing_story.story_id, true, st)
      | [] => (st.nextStoryId, false, { st with nextStoryId := st.nextStoryId + 1 })
    let story_id := idDup.1
    let is_duplicate := idDup.2.1
    let st0 := idDup.2.2
    let st1 := (EventStore.append st0 story_id "story.detected"
      (.obj [("source", .str feed_url),
             ("title", .str title),
             ("url", optStrJ entry.link),
             ("summary", .str summary),
             ("score", .num score),
             ("published", optStrJ entry.published),
             ("is_duplicate", .bool is_duplicate)]) (some 0)).1
    if is_duplicate = false ∧ embedding ≠ [] then
      MemoryStore.add st1 story_id content_for_embedding embedding "summary"
        (.obj [("source", .str feed_url),
               ("url", optStrJ entry.link),
               ("entities", .obj [])])
    else st1

/-- `ScoutAgent.scan_feed` (src/agents/scout.py lines 53-153):
`for entry in feed.entries[:10]` over a successfully parsed feed. -/
def ScoutAgent.scan_feed (embedf : String → Except String (List ℚ))
    (dist : List ℚ → List ℚ → ℚ) (feed_url : String)
    (entries : List FeedEntry) (st : DBState) : DBState :=
  (entries.take 10).foldl (ScoutAgent.scanEntry embedf dist feed_url) st

/-- Modelled from the spec (§4.2 Event Log), for comparison with the code's
`EventStore.append`: "Fails with `INVALID` if `event_type` is empty.  No
other failure modes; writes are unconditional." -/
def EventStoreSpec.append (st : DBState) (story_id : Nat) (event_type : String)
    (data : JVal) (agent_id : Option Nat) : Except String (DBState × Nat) :=
  if event_type = "" then .error "INVALID"
  else .ok (EventStore.append st story_id event_type data agent_id)

/-! ## Concrete states used by counterexamples and witnesses -/

/-- Empty database with arbitrary but fixed counters and clock. -/
def emptySt : DBState :=
  { events := [], tasks := [], articles := [], memory := [], prompts := []
    nextEventId := 0, nextTaskId := 0, nextArticleId := 0, nextStoryId := 100, now := 1000 }

/-- One `story.detected` event with a numeric score and a title. -/
def detEvt (sid : Nat) (score : ℚ) (ts : Int) (eid : Nat) : Event :=
  { id := eid, story_id := sid, agent_id := some 9, event_type := "story.detected"
    data := .obj [("score", .num score), ("title", .str "X")], created_at := ts }

/-- Single story with a single detection of score 0.85 (spec scenario S1). -/
def st4 : DBState := { emptySt with events := [detEvt 1 (mkRat 17 20) 1 0] }

/-- Single story with two detections: first score 0.4, later score 0.9. -/
def st8 : DBState :=
  { emptySt with events := [detEvt 1 (mkRat 2 5) 1 0, detEvt 1 (mkRat 9 10) 2 1] }

/-- One stored summary memory row. -/
def memRow1 : MemoryRow :=
  { story_id := 42, content := "c", embedding := [1], memory_type := "summary"
    metadata := .obj [] }

/-- Distance oracle that always answers 0.15, i.e. similarity exactly 0.85. -/
def distConst : List ℚ → List ℚ → ℚ := fun _ _ => mkRat 3 20

/-- Distance oracle that always answers 0.1, i.e. similarity 0.9. -/
def distNear : List ℚ → List ℚ → ℚ := fun _ _ => mkRat 1 10

/-- Store holding exactly `memRow1`. -/
def stMem : DBState := { emptySt with memory := [memRow1] }

/-- A completed REJECT review for story 5 (created at 10, completed at 900,
within one hour of `now = 1000`). -/
def reviewTask : StoryTask :=
  { id := 1, story_id := 5, stage := .review, status := .completed, priority := 6
    assigned_agent := none, input := .obj [("draft", .obj [("article", .str "body")])]
    output := .obj [("decision", .str "REJECT"), ("feedback", .str "bad")]
    created_at := 10, started_at := some 20, completed_at := some 900 }

/-- A task for story 5 created after `reviewTask`. -/
def laterTask : StoryTask :=
  { id := 2, story_id := 5, stage := .research, status := .pending, priority := 5
    assigned_agent := none, input := .obj [], output := .obj []
    created_at := 20, started_at := none, completed_at := none }

/-- Completed REJECT review that is not the story's most recent task. -/
def st2 : DBState := { emptySt with tasks := [reviewTask, laterTask] }

/-- The n-th prior edit task of story 5. -/
def editTaskN (n : Nat) : StoryTask :=
  { id := 10 + n, story_id := 5, stage := .edit, status := .completed, priority := 7
    assigned_agent := none, input := .obj [], output := .obj []
    created_at := 3, started_at := none, completed_at := none }

/-- Completed REJECT review for a story that already has three edit tasks
(spec scenario S6). -/
def st2k : DBState :=
  { emptySt with tasks := [reviewTask, editTaskN 0, editTaskN 1, editTaskN 2] }

/-- Completed REJECT review that *is* the story's only (hence latest) task. -/
def st2c : DBState := { emptySt with tasks := [reviewTask] }

/-- The review `reviewTask` completed 4000 seconds before `now = 1000`. -/
def staleReview : StoryTask := { reviewTask with completed_at := some (-3000) }

/-- A stale completed review next to an unrelated pending task. -/
def st9 : DBState := { emptySt with tasks := [staleReview, laterTask] }

/-- One pending human prompt on story 1. -/
def prompt1 : HumanPrompt :=
  { id := 1, story_id := 1, prompt_text := "dig", status := "pending", created_at := 5 }

/-- Pending prompt whose story has a detection event. -/
def st6 : DBState := { emptySt with events := [detEvt 1 (mkRat 17 20) 1 0], prompts := [prompt1] }

/-- A pending research task (never started). -/
def pendTask : StoryTask :=
  { id := 1, story_id := 5, stage := .research, status := .pending, priority := 5
    assigned_agent := none, input := .obj [], output := .obj []
    created_at := 10, started_at := none, completed_at := none }

/-- Queue holding exactly `pendTask`. -/
def st1 : DBState := { emptySt with tasks := [pendTask] }

/-- An active task started 2000 seconds before `now = 1000` (stalled, spec
scenario S5). -/
def staleTask : StoryTask :=
  { id := 3, story_id := 5, stage := .draft, status := .active, priority := 5
    assigned_agent := some 7, input := .obj [], output := .obj []
    created_at := -1100, started_at := some (-1000), completed_at := none }

/-- Queue holding exactly `staleTask`. -/
def st5 : DBState := { emptySt with tasks := [staleTask] }

/-- Feed entry that scores 0.7 (title+summary 0.3, recency 0.2, link 0.2). -/
def entry7 : FeedEntry :=
  { title := "T", summary := "s", link := some "http://x", published := none }

/-- Embedding service whose call raises (modelled as `Except.error`). -/
def badEmbed : String → Except String (List ℚ) := fun _ => .error "outage"

/-- Embedding service that succeeds with the vector `[1]`. -/
def goodEmbed : String → Except String (List ℚ) := fun _ => .ok [1]

/-! ## Bridge lemmas for the executable rational operations -/

theorem qadd_eq (a b : ℚ) : qadd a b = a + b := by
  have ha : ((a.den : ℚ)) ≠ 0 := by exact_mod_cast a.den_nz
  have hb : ((b.den : ℚ)) ≠ 0 := by exact_mod_cast b.den_nz
  unfold qadd
  rw [Rat.mkRat_eq_div]
  push_cast
  conv_rhs => rw [← Rat.num_div_den a, ← Rat.num_div_den b]
  rw [div_add_div _ _ ha hb]
  congr 1
  ring

theorem qsub_eq (a b : ℚ) : qsub a b = a - b := by
  have ha : ((a.den : ℚ)) ≠ 0 := by exact_mod_cast a.den_nz
  have hb : ((b.den : ℚ)) ≠ 0 := by exact_mod_cast b.den_nz
  unfold qsub
  rw [Rat.mkRat_eq_div]
  push_cast
  conv_rhs => rw [← Rat.num_div_den a, ← Rat.num_div_den b]
  rw [div_sub_div _ _ ha hb]
  congr 1
  ring

theorem qmul_eq (a b : ℚ) : qmul a b = a * b := by
  unfold qmul
  rw [Rat.mkRat_eq_div]
  push_cast
  conv_rhs => rw [← Rat.num_div_den a, ← Rat.num_div_den b]
  rw [div_mul_div_comm]

/-! ## C1 — TaskQueue.complete / TaskQueue.fail status preconditions -/

/-- C1 (counterexample).  The claim says `complete`/`fail` require
`status = 'active'`, that a re-call on a completed task leaves the row
unchanged, and that on a `pending` task they raise `INVALID_STATE` leaving
status, output and completed_at unchanged.  On the concrete pending task
`pendTask`, `complete` silently sets `status = completed` and stamps
`completed_at`, `fail` silently sets `status = failed`, and a second
`complete` at a later clock re-stamps `completed_at` — so the claim is
false. -/
theorem C1_counterexample :
    st1.tasks.map (fun t => t.status) = [.pending]
    ∧ (TaskQueue.complete st1 1 (.obj [("r", .str "done")])).tasks.map (fun t => t.status)
        = [.completed]
    ∧ (TaskQueue.complete st1 1 (.obj [("r", .str "done")])).tasks.map (fun t => t.completed_at)
        = [some 1000]
    ∧ (TaskQueue.fail st1 1 "boom").tasks.map (fun t => t.status) = [.failed]
    ∧ (TaskQueue.complete
        { (TaskQueue.complete st1 1 (.obj [("r", .str "done")])) with now := 2000 }
        1 (.obj [])).tasks.map (fun t => (t.completed_at, t.output))
        = [(some 2000, .obj [])] :=
  ⟨rfl, rfl, rfl, rfl, rfl⟩

/-- C1 (amended).  `complete(task_id, output)` and `fail(task_id, error)`
update the row keyed only on the task id, unconditionally: whatever the
task's current status, `complete` sets `status = completed`, overwrites
`output` and stamps `completed_at = now`, `fail` sets `status = failed`
with `output = { error: message }` and `completed_at = now`; rows with a
different id are untouched and no `INVALID_STATE` failure exists. -/
theorem C1_amended_theorem (st : DBState) (task_id : Nat) (output_data : JVal)
    (error : String) :
    ((TaskQueue.complete st task_id output_data).tasks.length = st.tasks.length
      ∧ (TaskQueue.fail st task_id error).tasks.length = st.tasks.length)
    ∧ (∀ i (h : i < st.tasks.length)
        (h2 : i < (TaskQueue.complete st task_id output_data).tasks.length),
        (TaskQueue.complete st task_id output_data).tasks.get ⟨i, h2⟩
          = (if (st.tasks.get ⟨i, h⟩).id = task_id
             then { st.tasks.get ⟨i, h⟩ with
                    status := .completed, output := output_data, completed_at := some st.now }
             else st.tasks.get ⟨i, h⟩))
    ∧ (∀ i (h : i < st.tasks.length)
        (h2 : i < (TaskQueue.fail st task_id error).tasks.length),
        (TaskQueue.fail st task_id error).tasks.get ⟨i, h2⟩
          = (if (st.tasks.get ⟨i, h⟩).id = task_id
             then { st.tasks.get ⟨i, h⟩ with
                    status := .failed, output := .obj [("error", .str error)]
                    completed_at := some st.now }
             else st.tasks.get ⟨i, h⟩)) := by
  refine ⟨⟨by simp [TaskQueue.complete], by simp [TaskQueue.fail]⟩, ?_, ?_⟩
  · intro i h h2
    simp [TaskQueue.complete, List.get_eq_getElem, List.getElem_map]
  · intro i h h2
    simp [TaskQueue.fail, List.get_eq_getElem, List.getElem_map]

/-- C1 (witness): the amended theorem applied to the one-task queue `st1`. -/
theorem C1_witness :
    (0 < st1.tasks.length)
    ∧ (TaskQueue.complete st1 1 (.obj [("r", .str "done")])).tasks.get ⟨0, by decide⟩
        = { pendTask with
            status := .completed, output := .obj [("r", .str "done")]
            completed_at := some 1000 }
    ∧ (TaskQueue.fail st1 1 "boom").tasks.get ⟨0, by decide⟩
        = { pendTask with
            status := .failed, output := .obj [("error", .str "boom")]
            completed_at := some 1000 } := by
  refine ⟨by decide, ?_, ?_⟩
  · exact ((C1_amended_theorem st1 1 (.obj [("r", .str "done")]) "boom").2.1 0
      (by decide) (by decide)).trans (by rfl)
  · exact ((C1_amended_theorem st1 1 (.obj [("r", .str "done")]) "boom").2.2 0
      (by decide) (by decide)).trans (by rfl)

/-! ## C5 — stalled-task recovery -/

/-- C5 (confirmed).  One run of `Chief.recover_stalled_tasks` resets every
task that is `active` and was started more than the 30-minute lease
(1800 s) ago to `pending` with `assigned_agent = NULL` and
`started_at = NULL`, and leaves every non-stalled task exactly unchanged. -/
theorem C5_theorem (st : DBState) :
    (Chief.recover_stalled_tasks st).tasks.length = st.tasks.length
    ∧ (∀ i (h : i < st.tasks.length)
        (h2 : i < (Chief.recover_stalled_tasks st).tasks.length),
        ((st.tasks.get ⟨i, h⟩).status = .active →
          ∀ s, (st.tasks.get ⟨i, h⟩).started_at = some s → 1800 < st.now - s →
          (Chief.recover_stalled_tasks st).tasks.get ⟨i, h2⟩
            = { st.tasks.get ⟨i, h⟩ with
                status := .pending, assigned_agent := none, started_at := none })
        ∧ (stalled st.now (st.tasks.get ⟨i, h⟩) = false →
          (Chief.recover_stalled_tasks st).tasks.get ⟨i, h2⟩ = st.tasks.get ⟨i, h⟩)) := by
  constructor
  · simp [Chief.recover_stalled_tasks]
  · intro i h h2
    constructor
    · intro hact s hs hlease
      simp only [List.get_eq_getElem] at hact hs ⊢
      have hst : stalled st.now st.tasks[i] = true := by
        simp only [stalled, hact, hs, beq_self_eq_true, Bool.true_and, decide_eq_true_eq]
        omega
      simp only [Chief.recover_stalled_tasks, List.getElem_map, hst, if_true]
    · intro hst
      simp only [List.get_eq_getElem] at hst ⊢
      simp only [Chief.recover_stalled_tasks, List.getElem_map, hst, Bool.false_eq_true,
        if_false]

/-- C5 (witness): the theorem applied to the stalled task `staleTask`
(active, started 2000 s before now). -/
theorem C5_witness :
    (0 < st5.tasks.length)
    ∧ (Chief.recover_stalled_tasks st5).tasks.get ⟨0, by decide⟩
        = { staleTask with status := .pending, assigned_agent := none, started_at := none } := by
  refine ⟨by decide, ?_⟩
  exact ((C5_theorem st5).2 0 (by decide) (by decide)).1 rfl (-1000) rfl (by decide)

/-! ## C7 — EventStore.append failure modes -/

/-- C7 (counterexample).  The claim says `append` fails with `INVALID` on an
empty `event_type`.  The code performs no such validation: appending with
`event_type = ""` succeeds, stores the row and returns the new sequence id,
whereas the spec-modelled `EventStoreSpec.append` rejects it. -/
theorem C7_counterexample :
    (EventStore.append emptySt 1 "" (.obj []) none).1.events.map (fun e => e.event_type)
        = [""]
    ∧ (EventStore.append emptySt 1 "" (.obj []) none).2 = 0
    ∧ EventStoreSpec.append emptySt 1 "" (.obj []) none = .error "INVALID" :=
  ⟨rfl, rfl, rfl⟩

/-- C7 (amended).  `EventStore.append` has no failure mode at all: for every
state, story id, event type — the empty string included — payload and agent
id, the append stores exactly one new event row and returns its sequence
id; on every non-empty event type it agrees with the spec-modelled
`EventStoreSpec.append`. -/
theorem C7_amended_theorem (st : DBState) (sid : Nat) (et : String) (d : JVal)
    (aid : Option Nat) :
    (EventStore.append st sid et d aid).2 = st.nextEventId
    ∧ (EventStore.append st sid et d aid).1.events
        = st.events ++ [{ id := st.nextEventId, story_id := sid, agent_id := aid
                          event_type := et, data := d, created_at := st.now }]
    ∧ (EventStore.append st sid et d aid).1.nextEventId = st.nextEventId + 1
    ∧ (et ≠ "" → EventStoreSpec.append st sid et d aid
        = .ok (EventStore.append st sid et d aid)) := by
  refine ⟨rfl, rfl, rfl, fun hne => ?_⟩
  simp [EventStoreSpec.append, hne]

/-- C7 (witness): the amended theorem applied at a non-empty event type. -/
theorem C7_witness :
    ("story.detected" ≠ "")
    ∧ EventStoreSpec.append emptySt 1 "story.detected" (.obj []) none
        = .ok (EventStore.append emptySt 1 "story.detected" (.obj []) none) :=
  ⟨by decide, (C7_amended_theorem emptySt 1 "story.detected" (.obj []) none).2.2.2 (by decide)⟩

/-! ## C6 — human prompts are never marked processing -/

/-- C6 (code bug).  One sweep over the pending prompt `prompt1` (story 1,
which has a detection event) creates the priority-10 research task with
`human_prompt_id`, `human_prompt_text` and the detection data in its input
— but the prompt's status stays `"pending"` (the orchestrator never calls
`HumanPromptStore.mark_processing`, which exists and works), so the very
next sweep enqueues a second identical task. -/
theorem C6_bug_theorem :
    (Chief.process_human_prompts st6).tasks.map
        (fun t => (t.story_id, t.stage, t.status, t.priority))
      = [(1, .research, .pending, 10)]
    ∧ jGet ((Chief.process_human_prompts st6).tasks.get ⟨0, by decide⟩).input "human_prompt_id"
        = some (.num 1)
    ∧ jGet ((Chief.process_human_prompts st6).tasks.get ⟨0, by decide⟩).input "human_prompt_text"
        = some (.str "dig")
    ∧ jGet ((Chief.process_human_prompts st6).tasks.get ⟨0, by decide⟩).input "detection_data"
        = some (detEvt 1 (mkRat 17 20) 1 0).data
    ∧ (Chief.process_human_prompts st6).prompts = [prompt1]
    ∧ prompt1.status = "pending"
    ∧ (Chief.process_human_prompts (Chief.process_human_prompts st6)).tasks.length = 2
    ∧ (HumanPromptStore.mark_processing st6 1).prompts.map (fun p => p.status)
        = ["processing"] :=
  ⟨rfl, rfl, rfl, rfl, rfl, rfl, rfl, rfl⟩

/-! ## C10 — scout behaviour under an embedding failure -/

/-- C10 (confirmed).  If the embed/memory query raises during a feed scan,
the scout still emits `story.detected` with `is_duplicate = false` under
the freshly minted story id (the counter value, which is then bumped) and
writes no memory row — the memory table is exactly what it was, so nothing
from this entry can ever match a later detection. -/
theorem C10_theorem (st : DBState) (entry : FeedEntry) (feed_url msg : String)
    (dist : List ℚ → List ℚ → ℚ) (embedf : String → Except String (List ℚ))
    (hscore : ¬ ScoutAgent.calculate_newsworthiness entry < mkRat 3 5)
    (hembed : embedf (entry.title ++ ". " ++ entry.summary.take 500) = .error msg) :
    (ScoutAgent.scan_feed embedf dist feed_url [entry] st).memory = st.memory
    ∧ (ScoutAgent.scan_feed embedf dist feed_url [entry] st).events
        = st.events ++
          [{ id := st.nextEventId
             story_id := st.nextStoryId
             agent_id := some 0
             event_type := "story.detected"
             data := .obj [("source", .str feed_url),
                           ("title", .str entry.title),
                           ("url", optStrJ entry.link),
                           ("summary", .str (entry.summary.take 500)),
                           ("score", .num (ScoutAgent.calculate_newsworthiness entry)),
                           ("published", optStrJ entry.published),
                           ("is_duplicate", .bool false)]
             created_at := st.now }]
    ∧ (ScoutAgent.scan_feed embedf dist feed_url [entry] st).nextStoryId
        = st.nextStoryId + 1 := by
  have h1 : ScoutAgent.scan_feed embedf dist feed_url [entry] st
      = ScoutAgent.scanEntry embedf dist feed_url st entry := rfl
  rw [h1]
  unfold ScoutAgent.scanEntry
  rw [if_neg hscore]
  simp only [hembed]
  exact ⟨rfl, rfl, rfl⟩

/-- C10 (witness): the theorem applied to the failing embedder `badEmbed`
and the scoring entry `entry7` over the empty store. -/
theorem C10_witness :
    (¬ ScoutAgent.calculate_newsworthiness entry7 < mkRat 3 5)
    ∧ (ScoutAgent.scan_feed badEmbed distConst "http://f" [entry7] emptySt).memory = []
    ∧ (ScoutAgent.scan_feed badEmbed distConst "http://f" [entry7] emptySt).nextStoryId
        = 101 := by
  refine ⟨by decide, ?_, ?_⟩
  · exact ((C10_theorem emptySt entry7 "http://f" "outage" distConst badEmbed
      (by decide) rfl).1).trans (by rfl)
  · exact ((C10_theorem emptySt entry7 "http://f" "outage" distConst badEmbed
      (by decide) rfl).2.2).trans (by rfl)

/-! ## C4 / C8 — admission of detections -/

/-- Evaluation of one admission step once the detection event and its score
are known: reject below the 0.6 gate, otherwise append `story.created` and
create the research task at priority `int(score * 10)`. -/
theorem processOneDetection_spec (st : DBState) (sid : Nat) (e : Event) (q : ℚ)
    (hfind : (EventStore.get_story_events st sid).find?
        (fun ev => ev.event_type = "story.detected") = some e)
    (hscore : jGet e.data "score" = some (.num q)) :
    Chief.processOneDetection st sid
      = if q < min_newsworthiness_score then
          logEvent st sid "story.rejected"
            (.obj [("reason", .str "low_score"), ("score", .num q)])
        else
          (TaskQueue.create
            (logEvent st sid "story.created"
              (.obj [("score", .num q), ("title", (jGet e.data "title").getD .null)]))
            sid .research (pyInt (qmul q 10)) (.obj [("detection_data", e.data)])).1 := by
  unfold Chief.processOneDetection
  simp only [hfind, pyScore, hscore]

/-- C4 (counterexample).  On the single detection of score 0.85 the code
creates the research task with priority `int(0.85 * 10) = 8`, not the
`round(0.85 * 10) = 9` the claim states. -/
theorem C4_counterexample :
    (Chief.process_new_detections st4).tasks.map (fun t => (t.stage, t.status, t.priority))
      = [(.research, .pending, 8)]
    ∧ (Chief.process_new_detections st4).events.map (fun e => e.event_type)
      = ["story.detected", "story.created"]
    ∧ pyScore (detEvt 1 (mkRat 17 20) 1 0).data = mkRat 17 20
    ∧ ¬ ((8 : Int) = 9) :=
  ⟨rfl, rfl, rfl, by decide⟩

/-- C4 (amended).  For an admitted detection (score ≥ 0.6) the orchestrator
appends `story.created { score, title }` and creates a `pending` research
task with `input = { detection_data: payload }` and priority
`int(score * 10)` — truncation toward zero, not rounding — so for score
0.85 the priority is 8, and 8 ≠ 9. -/
theorem C4_amended_theorem (st : DBState) (d : JVal) (q : ℚ) (sid eid : Nat)
    (aid : Option Nat) (ts : Int)
    (hev : st.events = [{ id := eid, story_id := sid, agent_id := aid
                          event_type := "story.detected", data := d, created_at := ts }])
    (hscore : jGet d "score" = some (.num q))
    (hq : min_newsworthiness_score ≤ q) :
    (Chief.process_new_detections st).events
      = st.events ++
        [{ id := st.nextEventId
           story_id := sid
           agent_id := some 0
           event_type := "story.created"
           data := .obj [("score", .num q), ("title", (jGet d "title").getD .null)]
           created_at := st.now }]
    ∧ (Chief.process_new_detections st).tasks
      = st.tasks ++
        [{ id := st.nextTaskId
           story_id := sid
           stage := .research
           status := .pending
           priority := pyInt (qmul q 10)
           assigned_agent := none
           input := .obj [("detection_data", d)]
           output := .obj []
           created_at := st.now
           started_at := none
           completed_at := none }]
    ∧ pyInt (qmul (mkRat 17 20) 10) = 8 := by
  have hrows : Chief.detectedNotCreated st = [sid] := by
    simp [Chief.detectedNotCreated, hev]
  have hfold : Chief.process_new_detections st = Chief.processOneDetection st sid := by
    unfold Chief.process_new_detections
    rw [hrows]
    rfl
  have hfind : (EventStore.get_story_events st sid).find?
      (fun ev => ev.event_type = "story.detected")
      = some { id := eid, story_id := sid, agent_id := aid
               event_type := "story.detected", data := d, created_at := ts } := by
    simp [EventStore.get_story_events, hev]
  rw [hfold, processOneDetection_spec st sid _ q hfind hscore, if_neg (not_lt.mpr hq)]
  exact ⟨rfl, rfl, by decide⟩

/-- C4 (witness): the amended theorem applied to the scenario-S1 state
`st4` (one detection, score 0.85). -/
theorem C4_witness :
    (min_newsworthiness_score ≤ mkRat 17 20)
    ∧ (Chief.process_new_detections st4).tasks.map (fun t => (t.stage, t.status, t.priority))
        = [(.research, .pending, 8)] := by
  refine ⟨by decide, ?_⟩
  have h := (C4_amended_theorem st4 (detEvt 1 (mkRat 17 20) 1 0).data (mkRat 17 20)
    1 0 (some 9) 1 rfl rfl (by decide)).2.1
  rw [h]
  rfl

/-- C8 (counterexample).  Story 1 has two detections: the earliest has
score 0.4, the most recent score 0.9 ≥ 0.6.  The claim says the most
recent payload drives the decision, so the story should be admitted; the
code instead reads the earliest detection and rejects the story with
`story.rejected { reason: "low_score", score: 0.4 }`, creating no task. -/
theorem C8_counterexample :
    (Chief.process_new_detections st8).tasks = []
    ∧ (Chief.process_new_detections st8).events.map (fun e => (e.event_type, pyScore e.data))
        = [("story.detected", mkRat 2 5), ("story.detected", mkRat 9 10),
           ("story.rejected", mkRat 2 5)]
    ∧ ¬ (mkRat 9 10 < min_newsworthiness_score)
    ∧ (mkRat 2 5 < min_newsworthiness_score) :=
  ⟨rfl, rfl, by decide, by decide⟩

/-- C8 (amended).  For a story with a `story.detected` event and no
`story.created` event, the admission step reads the payload of the
*earliest* `story.detected` event; later detections on the same story do
not determine the decision.  With earliest payload `d1` carrying score
`q1` and an arbitrary later detection `d2`: if `q1 < 0.6` the story is
rejected with score `q1` and no task is created, otherwise it is admitted
on `d1` (`story.created { score: q1 }`, research task over `d1`). -/
theorem C8_amended_theorem (st : DBState) (d1 d2 : JVal) (q1 : ℚ)
    (sid eid1 eid2 : Nat) (aid1 aid2 : Option Nat) (ts1 ts2 : Int)
    (hev : st.events
      = [{ id := eid1, story_id := sid, agent_id := aid1
           event_type := "story.detected", data := d1, created_at := ts1 },
         { id := eid2, story_id := sid, agent_id := aid2
           event_type := "story.detected", data := d2, created_at := ts2 }])
    (hscore : jGet d1 "score" = some (.num q1)) :
    (q1 < min_newsworthiness_score →
      (Chief.process_new_detections st).events
        = st.events ++
          [{ id := st.nextEventId
             story_id := sid
             agent_id := some 0
             event_type := "story.rejected"
             data := .obj [("reason", .str "low_score"), ("score", .num q1)]
             created_at := st.now }]
      ∧ (Chief.process_new_detections st).tasks = st.tasks)
    ∧ (min_newsworthiness_score ≤ q1 →
      (Chief.process_new_detections st).events
        = st.events ++
          [{ id := st.nextEventId
             story_id := sid
             agent_id := some 0
             event_type := "story.created"
             data := .obj [("score", .num q1), ("title", (jGet d1 "title").getD .null)]
             created_at := st.now }]
      ∧ (Chief.process_new_detections st).tasks
        = st.tasks ++
          [{ id := st.nextTaskId
             story_id := sid
             stage := .research
             status := .pending
             priority := pyInt (qmul q1 10)
             assigned_agent := none
             input := .obj [("detection_data", d1)]
             output := .obj []
             created_at := st.now
             started_at := none
             completed_at := none }]) := by
  have hrows : Chief.detectedNotCreated st = [sid] := by
    simp [Chief.detectedNotCreated, hev]
  have hfold : Chief.process_new_detections st = Chief.processOneDetection st sid := by
    unfold Chief.process_new_detections
    rw [hrows]
    rfl
  have hfind : (EventStore.get_story_events st sid).find?
      (fun ev => ev.event_type = "story.detected")
      = some { id := eid1, story_id := sid, agent_id := aid1
               event_type := "story.detected", data := d1, created_at := ts1 } := by
    simp [EventStore.get_story_events, hev]
  constructor
  · intro hlt
    rw [hfold, processOneDetection_spec st sid _ q1 hfind hscore, if_pos hlt]
    exact ⟨rfl, rfl⟩
  · intro hge
    rw [hfold, processOneDetection_spec st sid _ q1 hfind hscore, if_neg (not_lt.mpr hge)]
    exact ⟨rfl, rfl⟩

/-- C8 (witness): the amended theorem applied to the two-detection state
`st8` (earliest score 0.4, later 0.9): the rejection branch fires on the
earliest score. -/
theorem C8_witness :
    (mkRat 2 5 < min_newsworthiness_score)
    ∧ (Chief.process_new_detections st8).tasks = [] := by
  refine ⟨by decide, ?_⟩
  have h := ((C8_amended_theorem st8
    (detEvt 1 (mkRat 2 5) 1 0).data (detEvt 1 (mkRat 9 10) 2 1).data (mkRat 2 5)
    1 0 1 (some 9) (some 9) 1 2 rfl rfl).1 (by decide)).2
  rw [h]
  rfl

/-! ## C9 — one-hour window on review processing -/

/-- C9 (confirmed).  The review-processing sweep only fetches review tasks
whose `completed_at` lies within the last hour: a review completed more
than 3600 s before the sweep is never among the selected rows, and if
every completed review is that old the whole sweep is the identity — no
article, no publish task, no edit task and no `story.killed` event can
result from such a review. -/
theorem C9_theorem :
    (∀ (st : DBState) (t : StoryTask), t ∈ st.tasks → t.stage = .review →
      t.status = .completed → ∀ c, t.completed_at = some c → 3600 < st.now - c →
      t ∉ Chief.selectedReviews st)
    ∧ (∀ st : DBState,
      (∀ t ∈ st.tasks, t.stage = .review → t.status = .completed →
        withinLastHour st.now t = false) →
      Chief.process_reviews st = st) := by
  constructor
  · intro st t hmem hstage hstatus c hc hold hsel
    have h1 : t ∈ st.tasks.filter (fun t =>
        t.stage == TaskStage.review && t.status == TaskStatus.completed &&
          withinLastHour st.now t) := List.mem_of_mem_take hsel
    have h2 := (List.mem_filter.mp h1).2
    simp only [Bool.and_eq_true] at h2
    have h3 := h2.2
    rw [withinLastHour, hc] at h3
    simp only [decide_eq_true_eq] at h3
    omega
  · intro st hall
    have hfil : st.tasks.filter (fun t =>
        t.stage == TaskStage.review && t.status == TaskStatus.completed &&
          withinLastHour st.now t) = [] := by
      rw [List.filter_eq_nil_iff]
      intro a ha hcon
      rw [Bool.and_eq_true, Bool.and_eq_true] at hcon
      obtain ⟨⟨hs1, hs2⟩, hw⟩ := hcon
      rw [beq_iff_eq] at hs1 hs2
      rw [hall a ha hs1 hs2] at hw
      exact Bool.false_ne_true hw
    have hsel : Chief.selectedReviews st = [] := by
      unfold Chief.selectedReviews
      rw [hfil]
      rfl
    unfold Chief.process_reviews
    rw [hsel]
    rfl

/-- C9 (witness): `staleReview` (completed 4000 s ago) is in the queue but
not selected, and the sweep over `st9` changes nothing. -/
theorem C9_witness :
    (staleReview ∈ st9.tasks ∧ staleReview ∉ Chief.selectedReviews st9)
    ∧ Chief.process_reviews st9 = st9 := by
  constructor
  · exact ⟨List.Mem.head _,
      C9_theorem.1 st9 staleReview (List.Mem.head _) rfl rfl (-3000) rfl (by decide)⟩
  · exact C9_theorem.2 st9 (by decide)

/-! ## C2 — the revision loop and its bound -/

/-- Appending one task changes an edit count by at most the obvious
indicator. -/
theorem editCount_append (l : List StoryTask) (t : StoryTask) (sid : Nat) :
    editCount (l ++ [t]) sid
      = editCount l sid
        + (if t.story_id == sid && t.stage == TaskStage.edit then 1 else 0) := by
  unfold editCount
  rw [List.filter_append, List.length_append]
  congr 1
  split
  · next hcond => simp [List.filter_cons, hcond]
  · next hcond => simp [List.filter_cons, hcond]

/-- One `Chief.reviewStep` never raises a story's edit-task count above 3:
the only branch that creates an edit task is guarded by
`editCount < 3`. -/
theorem editCount_reviewStep_le (st : DBState) (row : StoryTask) (sid : Nat)
    (h : editCount st.tasks sid ≤ 3) :
    editCount (Chief.reviewStep st row).tasks sid ≤ 3 := by
  unfold Chief.reviewStep
  by_cases hA : ((jGet row.output "decision").getD .null).isStr "APPROVE" = true
  · rw [if_pos hA]
    by_cases hP : (st.tasks.any fun t =>
        t.story_id == row.story_id && t.stage == TaskStage.publish) = true
    · rw [if_pos hP]
      exact h
    · rw [if_neg hP]
      by_cases hT : jTruthy ((jGet row.input "draft").getD (.obj [])) = true
      · rw [if_neg (by simp [hT])]
        simp only [TaskQueue.create, ArticleStore.create_article]
        rw [editCount_append]
        rw [if_neg (by simp)]
        omega
      · rw [if_pos (by simp [hT])]
        exact h
  · rw [if_neg hA]
    by_cases hR : ((jGet row.output "decision").getD .null).isStr "REJECT" = true
    · rw [if_pos hR]
      by_cases hge : 3 ≤ editCount st.tasks row.story_id
      · rw [if_pos hge]
        simpa [logEvent, EventStore.append] using h
      · rw [if_neg hge]
        cases hlat : latestTask st.tasks row.story_id with
        | none => exact h
        | some lt =>
          dsimp only
          by_cases hid : lt.id = row.id
          · rw [if_pos hid]
            simp only [TaskQueue.create]
            rw [editCount_append]
            by_cases hsid : row.story_id = sid
            · subst hsid
              rw [if_pos (by simp)]
              omega
            · rw [if_neg (by simp [hsid])]
              omega
          · rw [if_neg hid]
            exact h
    · rw [if_neg hR]
      exact h

/-- C2 (counterexample).  Story 5 has zero edit tasks (below the bound) and
a completed REJECT review inside the one-hour window, but a task created
after the review also exists; the claim requires an edit task of priority 7
to be created, yet the sweep changes nothing at all. -/
theorem C2_counterexample :
    Chief.selectedReviews st2 = [reviewTask]
    ∧ (jGet reviewTask.output "decision").getD .null = .str "REJECT"
    ∧ editCount st2.tasks 5 = 0
    ∧ Chief.process_reviews st2 = st2 :=
  ⟨rfl, rfl, rfl, rfl⟩

/-- C2 (amended).  Processing a completed REJECT review: (kill) at ≥ 3
prior edit tasks the step appends `story.killed { reason:
"too_many_revisions", last_feedback }` and creates no task; (create) below
the bound, *and only when the review is the story's most recently created
task*, it creates an edit task with priority 7 and input `{ draft,
feedback, revision_number = count + 1 }`; (skip) below the bound with a
newer task present, the step does nothing.  Consequently a sweep
(`Chief.process_reviews`) never raises any story's edit-task count above
max_revisions = 3. -/
theorem C2_amended_theorem :
    (∀ (st : DBState) (row : StoryTask),
      (jGet row.output "decision").getD .null = .str "REJECT" →
      3 ≤ editCount st.tasks row.story_id →
      (Chief.reviewStep st row).tasks = st.tasks
      ∧ (Chief.reviewStep st row).events
          = st.events ++
            [{ id := st.nextEventId
               story_id := row.story_id
               agent_id := some 0
               event_type := "story.killed"
               data := .obj [("reason", .str "too_many_revisions"),
                             ("last_feedback", (jGet row.output "feedback").getD .null)]
               created_at := st.now }])
    ∧ (∀ (st : DBState) (row lt : StoryTask),
      (jGet row.output "decision").getD .null = .str "REJECT" →
      editCount st.tasks row.story_id < 3 →
      latestTask st.tasks row.story_id = some lt → lt.id = row.id →
      (Chief.reviewStep st row).events = st.events
      ∧ (Chief.reviewStep st row).tasks
          = st.tasks ++
            [{ id := st.nextTaskId
               story_id := row.story_id
               stage := .edit
               status := .pending
               priority := 7
               assigned_agent := none
               input := .obj
                 [("draft", (jGet row.input "draft").getD (.obj [])),
                  ("feedback", (jGet row.output "feedback").getD
                    (.str "No feedback provided.")),
                  ("revision_number", .num ((editCount st.tasks row.story_id : ℚ) + 1))]
               output := .obj []
               created_at := st.now
               started_at := none
               completed_at := none }])
    ∧ (∀ (st : DBState) (row lt : StoryTask),
      (jGet row.output "decision").getD .null = .str "REJECT" →
      editCount st.tasks row.story_id < 3 →
      latestTask st.tasks row.story_id = some lt → lt.id ≠ row.id →
      Chief.reviewStep st row = st)
    ∧ (∀ st : DBState, (∀ sid, editCount st.tasks sid ≤ 3) →
      ∀ sid, editCount (Chief.process_reviews st).tasks sid ≤ 3) := by
  have hAfalse : ∀ (row : StoryTask),
      (jGet row.output "decision").getD .null = .str "REJECT" →
      ((jGet row.output "decision").getD .null).isStr "APPROVE" = false := by
    intro row hdec
    rw [hdec]
    rfl
  have hRtrue : ∀ (row : StoryTask),
      (jGet row.output "decision").getD .null = .str "REJECT" →
      ((jGet row.output "decision").getD .null).isStr "REJECT" = true := by
    intro row hdec
    rw [hdec]
    rfl
  refine ⟨?_, ?_, ?_, ?_⟩
  · intro st row hdec hge
    unfold Chief.reviewStep
    rw [if_neg (by rw [hAfalse row hdec]; exact Bool.false_ne_true),
        if_pos (by rw [hRtrue row hdec]),
        if_pos hge]
    exact ⟨rfl, rfl⟩
  · intro st row lt hdec hlt hlatest hid
    unfold Chief.reviewStep
    rw [if_neg (by rw [hAfalse row hdec]; exact Bool.false_ne_true),
        if_pos (by rw [hRtrue row hdec]),
        if_neg (not_le.mpr hlt), hlatest]
    dsimp only
    rw [if_pos hid]
    exact ⟨rfl, rfl⟩
  · intro st row lt hdec hlt hlatest hid
    unfold Chief.reviewStep
    rw [if_neg (by rw [hAfalse row hdec]; exact Bool.false_ne_true),
        if_pos (by rw [hRtrue row hdec]),
        if_neg (not_le.mpr hlt), hlatest]
    dsimp only
    rw [if_neg hid]
  · intro st hall sid
    unfold Chief.process_reviews
    have hgen : ∀ (rows : List StoryTask) (st' : DBState),
        (∀ s, editCount st'.tasks s ≤ 3) →
        editCount ((rows.foldl Chief.reviewStep st')).tasks sid ≤ 3 := by
      intro rows
      induction rows with
      | nil => intro st' hall'; exact hall' sid
      | cons r rs ih =>
        intro st' hall'
        rw [List.foldl_cons]
        exact ih (Chief.reviewStep st' r)
          (fun s => editCount_reviewStep_le st' r s (hall' s))
    exact hgen (Chief.selectedReviews st) st hall

/-- C2 (witness): the kill branch on `st2k` (three prior edit tasks) and
the create branch on `st2c` (the review is the story's latest task). -/
theorem C2_witness :
    ((jGet reviewTask.output "decision").getD .null = .str "REJECT")
    ∧ (3 ≤ editCount st2k.tasks 5)
    ∧ (Chief.reviewStep st2k reviewTask).tasks = st2k.tasks
    ∧ (editCount st2c.tasks 5 < 3)
    ∧ (Chief.reviewStep st2c reviewTask).tasks.map
        (fun t => (t.story_id, t.stage, t.status, t.priority))
      = [(5, .review, .completed, 6), (5, .edit, .pending, 7)] := by
  refine ⟨rfl, by decide, ?_, by decide, ?_⟩
  · exact (C2_amended_theorem.1 st2k reviewTask rfl (by decide)).1
  · have h := (C2_amended_theorem.2.1 st2c reviewTask reviewTask rfl (by decide) rfl rfl).2
    rw [h]
    rfl

/-! ## C3 — similarity threshold and deduplication -/

/-- C3 (counterexample).  With a distance oracle answering exactly
`1 - threshold` (similarity exactly 0.85 = the dedup threshold) on the
stored summary row, `find_similar_stories` returns nothing — the claim's
boundary case `similarity = threshold` is excluded by the strict `<` the
code issues — and the scout consequently treats the entry as a *new*
story: `is_duplicate = false` under a fresh id, and a second memory row is
written. -/
theorem C3_counterexample :
    MemoryStore.find_similar_stories distConst stMem [1] (mkRat 17 20) 1 = []
    ∧ qsub 1 (distConst [1] memRow1.embedding) = mkRat 17 20
    ∧ memRow1.memory_type = "summary"
    ∧ (ScoutAgent.scan_feed goodEmbed distConst "u" [entry7] stMem).events.map
        (fun e => (e.story_id, jGet e.data "is_duplicate"))
      = [(100, some (.bool false))]
    ∧ (ScoutAgent.scan_feed goodEmbed distConst "u" [entry7] stMem).memory.length = 2 :=
  ⟨rfl, by decide, rfl, rfl, rfl⟩

/-- C3 (amended).  `find_similar_stories` returns exactly the memory rows
of `memory_type = "summary"` whose cosine similarity to the query is
*strictly greater than* the threshold (a row at exactly the threshold is
not returned), sorted by descending similarity, up to the limit; and when
a match exists the scout emits `story.detected` with `is_duplicate = true`
on the existing story's id and writes no new memory row. -/
theorem C3_amended_theorem :
    (∀ (dist : List ℚ → List ℚ → ℚ) (st : DBState) (emb : List ℚ) (t : ℚ) (lim : Nat),
      (MemoryStore.find_similar_stories dist st emb t lim).length ≤ lim)
    ∧ (∀ (dist : List ℚ → List ℚ → ℚ) (st : DBState) (emb : List ℚ) (t : ℚ)
        (lim : Nat) (r : SimResult),
        r ∈ MemoryStore.find_similar_stories dist st emb t lim →
        ∃ row ∈ st.memory, row.memory_type = "summary"
          ∧ t < 1 - dist emb row.embedding
          ∧ r = { story_id := row.story_id
                  similarity := qsub 1 (dist emb row.embedding)
                  content := row.content })
    ∧ (∀ (dist : List ℚ → List ℚ → ℚ) (st : DBState) (emb : List ℚ) (t : ℚ)
        (lim : Nat) (row : MemoryRow),
        (st.memory.filter (fun r =>
          decide (dist emb r.embedding < qsub 1 t) && r.memory_type == "summary")).length
            ≤ lim →
        row ∈ st.memory → row.memory_type = "summary" → t < 1 - dist emb row.embedding →
        ({ story_id := row.story_id
           similarity := qsub 1 (dist emb row.embedding)
           content := row.content } : SimResult)
          ∈ MemoryStore.find_similar_stories dist st emb t lim)
    ∧ (∀ (dist : List ℚ → List ℚ → ℚ) (st : DBState) (emb : List ℚ) (t : ℚ) (lim : Nat),
        (MemoryStore.find_similar_stories dist st emb t lim).Pairwise
          (fun a b => b.similarity ≤ a.similarity))
    ∧ (∀ (embedf : String → Except String (List ℚ)) (dist : List ℚ → List ℚ → ℚ)
        (feed_url : String) (entry : FeedEntry) (st : DBState) (emb : List ℚ)
        (m : SimResult) (ms : List SimResult),
        ¬ ScoutAgent.calculate_newsworthiness entry < mkRat 3 5 →
        embedf (entry.title ++ ". " ++ entry.summary.take 500) = .ok emb →
        MemoryStore.find_similar_stories dist st emb (mkRat 17 20) 1 = m :: ms →
        (ScoutAgent.scan_feed embedf dist feed_url [entry] st).memory = st.memory
        ∧ (ScoutAgent.scan_feed embedf dist feed_url [entry] st).events
            = st.events ++
              [{ id := st.nextEventId
                 story_id := m.story_id
                 agent_id := some 0
                 event_type := "story.detected"
                 data := .obj [("source", .str feed_url),
                               ("title", .str entry.title),
                               ("url", optStrJ entry.link),
                               ("summary", .str (entry.summary.take 500)),
                               ("score", .num (ScoutAgent.calculate_newsworthiness entry)),
                               ("published", optStrJ entry.published),
                               ("is_duplicate", .bool true)]
                 created_at := st.now }]
        ∧ (ScoutAgent.scan_feed embedf dist feed_url [entry] st).nextStoryId
            = st.nextStoryId) := by
  refine ⟨?_, ?_, ?_, ?_, ?_⟩
  · intro dist st emb t lim
    simp only [MemoryStore.find_similar_stories, List.length_map, List.length_take]
    omega
  · intro dist st emb t lim r hr
    simp only [MemoryStore.find_similar_stories, List.mem_map] at hr
    obtain ⟨row, hrow, heq⟩ := hr
    have h1 : row ∈ (st.memory.filter (fun r =>
        decide (dist emb r.embedding < qsub 1 t) && r.memory_type == "summary")) := by
      have h2 := List.mem_of_mem_take hrow
      exact (List.perm_insertionSort _ _).mem_iff.mp h2
    have h3 := List.mem_filter.mp h1
    have h4 := h3.2
    rw [Bool.and_eq_true, decide_eq_true_eq, beq_iff_eq] at h4
    refine ⟨row, h3.1, h4.2, ?_, heq.symm⟩
    have h5 := h4.1
    rw [qsub_eq] at h5
    linarith
  · intro dist st emb t lim row hlen hmem htype hsim
    simp only [MemoryStore.find_similar_stories, List.mem_map]
    refine ⟨row, ?_, rfl⟩
    have hP : (fun r => decide (dist emb r.embedding < qsub 1 t)
        && r.memory_type == "summary") row = true := by
      rw [Bool.and_eq_true, decide_eq_true_eq, beq_iff_eq]
      refine ⟨?_, htype⟩
      rw [qsub_eq]
      linarith
    have h1 : row ∈ (st.memory.filter (fun r =>
        decide (dist emb r.embedding < qsub 1 t) && r.memory_type == "summary")) :=
      List.mem_filter.mpr ⟨hmem, hP⟩
    have h2 : row ∈ ((st.memory.filter (fun r =>
        decide (dist emb r.embedding < qsub 1 t) && r.memory_type == "summary")).insertionSort
          (fun a b => dist emb a.embedding ≤ dist emb b.embedding)) :=
      (List.perm_insertionSort _ _).mem_iff.mpr h1
    rw [List.take_of_length_le (by rw [List.length_insertionSort]; exact hlen)]
    exact h2
  · intro dist st emb t lim
    haveI hTot : IsTotal MemoryRow
        (fun a b => dist emb a.embedding ≤ dist emb b.embedding) :=
      ⟨fun a b => le_total _ _⟩
    haveI hTrans : IsTrans MemoryRow
        (fun a b => dist emb a.embedding ≤ dist emb b.embedding) :=
      ⟨fun a b c hab hbc => le_trans hab hbc⟩
    have hsorted := List.sorted_insertionSort
      (fun a b => dist emb a.embedding ≤ dist emb b.embedding)
      (st.memory.filter (fun r =>
        decide (dist emb r.embedding < qsub 1 t) && r.memory_type == "summary"))
    have htake := hsorted.sublist (List.take_sublist lim _)
    simp only [MemoryStore.find_similar_stories]
    refine htake.map _ (fun a b hab => ?_)
    simp only [qsub_eq]
    linarith
  · intro embedf dist feed_url entry st emb m ms hscore hembed hsim
    have h1 : ScoutAgent.scan_feed embedf dist feed_url [entry] st
        = ScoutAgent.scanEntry embedf dist feed_url st entry := rfl
    rw [h1]
    unfold ScoutAgent.scanEntry
    rw [if_neg hscore]
    simp only [hembed, hsim]
    rw [if_neg (by simp)]
    exact ⟨rfl, rfl, rfl⟩

/-- C3 (witness): with a distance oracle answering 0.1 (similarity 0.9,
strictly above the threshold), the stored row is returned by
`find_similar_stories` and a scan of the scoring entry leaves the memory
table unchanged (duplicate path). -/
theorem C3_witness :
    (mkRat 17 20 < 1 - distNear [1] memRow1.embedding)
    ∧ ({ story_id := 42, similarity := qsub 1 (distNear [1] memRow1.embedding)
         content := "c" } : SimResult)
        ∈ MemoryStore.find_similar_stories distNear stMem [1] (mkRat 17 20) 1
    ∧ (ScoutAgent.scan_feed goodEmbed distNear "u" [entry7] stMem).memory = [memRow1] := by
  have hq : mkRat 17 20 < 1 - distNear [1] memRow1.embedding := by
    rw [← qsub_eq]
    decide
  refine ⟨hq, ?_, ?_⟩
  · exact C3_amended_theorem.2.2.1 distNear stMem [1] (mkRat 17 20) 1 memRow1
      (by decide) (List.Mem.head _) rfl hq
  · exact (C3_amended_theorem.2.2.2.2 goodEmbed distNear "u" entry7 stMem [1]
      { story_id := 42, similarity := qsub 1 (distNear [1] [1]), content := "c" } []
      (by decide) rfl rfl).1.trans (by rfl)
